import Mathlib

set_option maxHeartbeats 1000000

/-!
Verification of the ticket-to-artifact pipeline of the `ai_tooling`
repository.  The TypeScript sources are shallowly embedded: the string
post-processing of the two AI responses is modelled on `List Char`, the
stateful GitLab publishing pipeline is modelled by explicit state passing
over an environment of stage outcomes, and the command handler is modelled
as a function returning its log together with the exception it would
propagate (if any).
-/

namespace AiTooling

/-! ## String model

`wsChar` is the whitespace test of JavaScript `String.prototype.trim`,
restricted to the ASCII whitespace characters. -/

def wsChar (c : Char) : Bool :=
  c == ' ' || c == '\t' || c == '\n' || c == '\r' || c == '\x0b' || c == '\x0c'

def ltrim (l : List Char) : List Char := l.dropWhile wsChar

def rtrim (l : List Char) : List Char := (l.reverse.dropWhile wsChar).reverse

def trimBoth (l : List Char) : List Char := rtrim (ltrim l)

/-- A list of characters is already trimmed on both sides. -/
def Trimmed (l : List Char) : Prop := ltrim l = l ∧ rtrim l = l

/-- Scanner for the JavaScript global regex replace that deletes every
occurrence of the pattern `p0 :: pr` followed by an optional newline (the
source patterns are triple-backtick fences, with or without a language tag).
The first argument counts pattern characters still to be skipped after a
match was recognised, and the `Bool` records that the optional newline of
the previous match may still be consumed.  Matches are leftmost and
non-overlapping, as with a JavaScript `/g` regex. -/
def go (p0 : Char) (pr : List Char) : Nat → Bool → List Char → List Char
  | _, _, [] => []
  | n + 1, eat, _ :: cs => go p0 pr n eat cs
  | 0, eat, c :: cs =>
    if eat && c == '\n' then go p0 pr 0 false cs
    else if (p0 :: pr).isPrefixOf (c :: cs) then go p0 pr pr.length true cs
    else c :: go p0 pr 0 false cs

/-- `text.replace(/PAT\n?/g, '')` for a pattern `'`' :: pr`. -/
def stripPattern (pr : List Char) (l : List Char) : List Char := go '`' pr 0 false l

/-- Lines 59-71 of `TemplateAnalyzer.ts` (identical to lines 96-108 of the
code generator): trim, drop a single leading backtick, drop a single
trailing backtick, trim again. -/
def dropHeadTick (t : List Char) : List Char :=
  if t.head? = some '`' then t.tail else t

def dropLastTick (t : List Char) : List Char :=
  if t.getLast? = some '`' then t.dropLast else t

def stripEdgeBackticks (l : List Char) : List Char :=
  trimBoth (dropLastTick (dropHeadTick (trimBoth l)))

/-- Tail (after the leading backtick) of the regex `/```json\n?/g`. -/
def jsonRegexTail : List Char := ['`', '`', 'j', 's', 'o', 'n']

/-- Tail of the regex `/```html\n?/g`. -/
def htmlRegexTail : List Char := ['`', '`', 'h', 't', 'm', 'l']

/-- Tail of the regex `/```\n?/g`. -/
def fenceRegexTail : List Char := ['`', '`']

/-- `TemplateAnalyzer.cleanJsonResponse`, list level: first remove all
occurrences of three backticks plus `json` tag (with optional newline), then
all bare triple-backtick fences, then strip edge backticks and whitespace. -/
def cleanJsonResponseL (l : List Char) : List Char :=
  stripEdgeBackticks (stripPattern fenceRegexTail (stripPattern jsonRegexTail l))

def cleanJsonResponse (s : String) : String := ⟨cleanJsonResponseL s.data⟩

/-- `CodeGenerator.cleanGeneratedCode`: identical except that the stripped
language tag is `html`. -/
def cleanGeneratedCodeL (l : List Char) : List Char :=
  stripEdgeBackticks (stripPattern fenceRegexTail (stripPattern htmlRegexTail l))

def cleanGeneratedCode (s : String) : String := ⟨cleanGeneratedCodeL s.data⟩

/-! ## Branch-name normalization (`TemplateAnalyzer.ts`, lines 96-99) -/

/-- JavaScript `toLowerCase`, per character. -/
def jsToLower (s : String) : String := ⟨s.data.map Char.toLower⟩

/-- JavaScript `String.prototype.startsWith`. -/
def jsStartsWith (s pre : String) : Bool := pre.data.isPrefixOf s.data

/-- Lines 96-99 of `TemplateAnalyzer.ts`: if the branch name does not start
with the ticket key case-insensitively, rewrite it as
lowercased ticket key, hyphen, lowercased branch name. -/
def normalizeBranchName (ticketKey branchName : String) : String :=
  if jsStartsWith (jsToLower branchName) (jsToLower ticketKey) then branchName
  else jsToLower ticketKey ++ "-" ++ jsToLower branchName

/-! ## Metadata extraction (`TemplateAnalyzer.analyzeTicketDescription`)

The AI call and `JSON.parse` are external; the embedding starts from the
outcome of parsing the cleaned response: either a JavaScript error message
or an object whose seven expected members may each be absent (or null).
JavaScript truthiness makes an empty string falsy, while an empty array is
truthy, which the validity test below reflects. -/

structure TemplateAnalysisCandidate where
  templateName : Option String
  templateVariables : Option (List String)
  description : Option String
  mergeRequestTitle : Option String
  mergeRequestDescription : Option String
  branchName : Option String
  commitMessage : Option String
deriving DecidableEq

/-- Validated analysis object (all seven fields present). -/
structure TemplateAnalysis where
  templateName : String
  templateVariables : List String
  description : String
  mergeRequestTitle : String
  mergeRequestDescription : String
  branchName : String
  commitMessage : String
deriving DecidableEq

deriving instance DecidableEq for Except

/-- JavaScript truthiness of an optional string member. -/
def strTruthy : Option String → Bool
  | none => false
  | some s => s ≠ ""

/-- The validity test of lines 90-92 of `TemplateAnalyzer.ts`. -/
def requiredFieldsOk (c : TemplateAnalysisCandidate) : Bool :=
  strTruthy c.templateName && c.templateVariables.isSome && strTruthy c.description &&
  strTruthy c.mergeRequestTitle && strTruthy c.mergeRequestDescription &&
  strTruthy c.branchName && strTruthy c.commitMessage

/-- Outcome of `JSON.parse` on the cleaned response text. -/
inductive ParseOutcome where
  | ok (c : TemplateAnalysisCandidate)
  | err (msg : String)
deriving DecidableEq

def validationMsg : String := "Invalid template analysis response: missing required fields"

def parseFailMsg : String := "Failed to parse template analysis response as JSON"

/-- Body of the inner `try` of lines 86-101: parse, validate (throwing
`validationMsg`), then normalize the branch name and return the object. -/
def analyzeInner (ticketKey : String) (pr : ParseOutcome) : Except String TemplateAnalysis :=
  match pr with
  | .err m => .error m
  | .ok c =>
    if requiredFieldsOk c then
      .ok { templateName := c.templateName.getD ""
            templateVariables := c.templateVariables.getD []
            description := c.description.getD ""
            mergeRequestTitle := c.mergeRequestTitle.getD ""
            mergeRequestDescription := c.mergeRequestDescription.getD ""
            branchName := normalizeBranchName ticketKey (c.branchName.getD "")
            commitMessage := c.commitMessage.getD "" }
    else .error validationMsg

/-- Lines 86-106 of `TemplateAnalyzer.ts`: the inner `catch (parseError)`
replaces whatever was thrown inside the `try` — including the validation
error — by the fixed parse-failure error.  The outer catch only logs and
rethrows, so it is the identity on the result. -/
def analyzeTicketDescription (ticketKey : String) (pr : ParseOutcome) :
    Except String TemplateAnalysis :=
  match analyzeInner ticketKey pr with
  | .ok a => .ok a
  | .error _ => .error parseFailMsg

/-! ## Default-branch detection (`GitLabManager.detectDefaultBranch`)

The two `execSync` outputs are inputs of the model; `none` stands for a
command that threw (in the source the surrounding catch then leaves the
field at its initial value `main`). -/

/-- First position where `pat` occurs, returned as the remaining characters
after it; `none` if `pat` never occurs. -/
def findAfter (pat : List Char) : List Char → Option (List Char)
  | [] => none
  | c :: cs =>
    if pat.isPrefixOf (c :: cs) then some ((c :: cs).drop pat.length)
    else findAfter pat cs

/-- JavaScript `String.prototype.includes`. -/
def containsSub (pat l : List Char) : Bool := (findAfter pat l).isSome

/-- The capture of `/HEAD branch: (.*)/` on the `git remote show origin`
output: text after the first `HEAD branch: ` up to a line terminator.
`none` when the regex does not match. -/
def headBranchCapture (out : List Char) : Option (List Char) :=
  match findAfter ("HEAD branch: ".data) out with
  | none => none
  | some rest => some (rest.takeWhile (fun c => !(c == '\n' || c == '\r')))

/-- The truthiness test `match && match[1]` of line 102: a nonempty capture. -/
def advertisedHead (out : List Char) : Option (List Char) :=
  match headBranchCapture out with
  | none => none
  | some cap => if cap = [] then none else some cap

def detectWarnMsg : String :=
  "Warning: Could not determine default branch, using \"main\" as fallback"

/-- Lines 108-126: the `main`/`master` heuristics over `git branch -a`
output, used when no HEAD branch was advertised.  Returns the detected
branch together with the log lines it prints. -/
def fallbackBranches : Option String → String × List String
  | none => ("main", ["Error detecting default branch:", "Using default branch: main"])
  | some br =>
    if containsSub "remotes/origin/main".data br.data then
      ("main", ["Default branch set to: main"])
    else if containsSub "remotes/origin/master".data br.data then
      ("master", ["Default branch set to: master"])
    else ("main", [detectWarnMsg])

/-- Lines 94-132 of `part_001`: prefer the advertised HEAD branch (trimmed);
otherwise fall back to the remote-branch heuristics; if the first command
threw, the catch keeps the initial value `main`. -/
def detectDefaultBranch (remoteShowOut : Option String) (branchesOut : Option String) :
    String × List String :=
  match remoteShowOut with
  | none => ("main", ["Error detecting default branch:", "Using default branch: main"])
  | some out =>
    match advertisedHead out.data with
    | some cap => (⟨trimBoth cap⟩, ["Default branch detected"])
    | none => fallbackBranches branchesOut

/-! ## Repository publisher (`GitLabManager.createTemplateAndMergeRequest`)

Process state: the working directory (a list of path segments) and the set
of existing directories (absolute paths).  Stage outcomes are inputs:
`none` means the stage's external command succeeded, `some e` that it threw
the error message `e`.  `cleanupErrs` gives the outcome of each successive
invocation of `cleanup` (defaulting to success when exhausted). -/

structure PState where
  cwd : List String
  dirs : List (List String)
deriving DecidableEq

structure GitEnv where
  cloneErr : Option String
  branchErr : Option String
  saveErr : Option String
  commitErr : Option String
  mrErr : Option String
  cleanupErrs : List (Option String)
deriving DecidableEq

structure RunResult where
  state : PState
  cleanupCalls : Nat
  propagated : Option String
deriving DecidableEq

/-- Recursive `fs.rmSync(dir, \x7b recursive: true \x7d)`: removes the
directory and everything below it. -/
def rmRec (fs : List (List String)) (tgt : List String) : List (List String) :=
  fs.filter (fun p => !(tgt.isPrefixOf p))

def tempDirName : String := "temp_git"

def cloneFailMsg (e : String) : String :=
  "Failed to clone repository: " ++ e ++ ". Please check your GITLAB_TOKEN and REPO_NAME."

/-- Lines 134-156: remove a pre-existing scratch directory, clone into it;
a failure is wrapped in `cloneFailMsg`. -/
def cloneRepository (env : GitEnv) (st : PState) : PState × Option String :=
  let tdir := st.cwd ++ [tempDirName]
  let fs1 := rmRec st.dirs tdir
  match env.cloneErr with
  | some e => ({ st with dirs := fs1 }, some (cloneFailMsg e))
  | none => ({ st with dirs := tdir :: fs1 }, none)

/-- Lines 158-168: `process.chdir(tempDir)` happens before the checkout, so
the working directory changes even when the checkout then fails. -/
def createBranch (env : GitEnv) (st : PState) : PState × Option String :=
  ({ st with cwd := st.cwd ++ [tempDirName] }, env.branchErr)

/-- Lines 170-185: create `templates` under the current directory and write
the file (directory creation modelled; a failure leaves the state as is). -/
def saveTemplate (env : GitEnv) (st : PState) : PState × Option String :=
  match env.saveErr with
  | some e => (st, some e)
  | none => ({ st with dirs := (st.cwd ++ ["templates"]) :: st.dirs }, none)

/-- Lines 283-300: `process.chdir('..')` runs unconditionally, then the
scratch directory name is resolved against the new working directory and
removed.  An error during removal is logged and rethrown. -/
def cleanup (st : PState) (outcome : Option String) : PState × Option String :=
  let cwd' := st.cwd.dropLast
  let tdir := cwd' ++ [tempDirName]
  match outcome with
  | none => ({ cwd := cwd', dirs := rmRec st.dirs tdir }, none)
  | some e => ({ st with cwd := cwd' }, some e)

/-- The `catch` block of lines 87-91: report, run `cleanup`, rethrow the
original error — unless `cleanup` itself throws, in which case its error
escapes instead.  `idx` counts the cleanup invocations already made. -/
def catchPath (env : GitEnv) (st : PState) (idx : Nat) (origErr : String) : RunResult :=
  match cleanup st (env.cleanupErrs.getD idx none) with
  | (st', none) => ⟨st', idx + 1, some origErr⟩
  | (st', some ce) => ⟨st', idx + 1, some ce⟩

/-- Lines 53-92 of `part_001`: clone, detect default branch (which never
throws), create branch, save, commit-and-push, open the merge request,
clean up; any failure goes through the catch block.  A failure of the
`cleanup` call on the success path is itself caught by the same catch. -/
def createTemplateAndMergeRequest (env : GitEnv) (init : PState) : RunResult :=
  match cloneRepository env init with
  | (s1, some err) => catchPath env s1 0 err
  | (s1, none) =>
    match createBranch env s1 with
    | (s2, some err) => catchPath env s2 0 err
    | (s2, none) =>
      match saveTemplate env s2 with
      | (s3, some err) => catchPath env s3 0 err
      | (s3, none) =>
        match env.commitErr with
        | some err => catchPath env s3 0 err
        | none =>
          match env.mrErr with
          | some err => catchPath env s3 0 err
          | none =>
            match cleanup s3 (env.cleanupErrs.getD 0 none) with
            | (s4, none) => ⟨s4, 1, none⟩
            | (s4, some ce) => catchPath env s4 1 ce

/-- The error of the first failing pipeline stage (clone errors are wrapped
by the source before being thrown). -/
def firstStageErr (env : GitEnv) : Option String :=
  match env.cloneErr with
  | some e => some (cloneFailMsg e)
  | none =>
    match env.branchErr with
    | some e => some e
    | none =>
      match env.saveErr with
      | some e => some e
      | none =>
        match env.commitErr with
        | some e => some e
        | none => env.mrErr

/-! ## Constructor validation (`part_001`, lines 28-51) -/

structure GitLabConfig where
  token : String
  baseUrl : String
  repoName : String
deriving DecidableEq

structure HostingEnvVars where
  gitlabToken : Option String
  gitlabBaseUrl : Option String
  repoName : Option String
deriving DecidableEq

def tokenRequiredMsg : String := "GITLAB_TOKEN environment variable is required"

def repoRequiredMsg : String := "REPO_NAME environment variable is required"

/-- The constructor: validate `GITLAB_TOKEN` then `REPO_NAME` (JavaScript
truthiness, so an empty value also fails), then build the configuration;
the base URL defaults when absent or empty.  No network request is issued:
the only further act is constructing the API client object. -/
def gitLabManagerConstructor (env : HostingEnvVars) : Except String GitLabConfig :=
  if strTruthy env.gitlabToken = false then .error tokenRequiredMsg
  else if strTruthy env.repoName = false then .error repoRequiredMsg
  else .ok { token := env.gitlabToken.getD ""
             baseUrl := if strTruthy env.gitlabBaseUrl then env.gitlabBaseUrl.getD ""
                        else "https://gitlab.com"
             repoName := env.repoName.getD "" }

/-! ## Command handler (`ComandHandler.handleCommand`) -/

structure JiraIssue where
  key : String
  summary : String
  statusName : String
  description : Option String
deriving DecidableEq

/-- Outcomes of the external calls made by one invocation. -/
structure CommandDeps where
  findIssue : Except String JiraIssue
  analyze : Except String TemplateAnalysis
  generate : Except String String
  writeErr : Option String
  publishErr : Option String

structure CommandOptions where
  task : Option String
  createMr : Bool

def missingTaskMsg : String := "Please provide a task ID using -t or --task option"

def nextStepsChecklist (ta : TemplateAnalysis) : List String :=
  ["=== NEXT STEPS ===",
   "   git checkout -b " ++ ta.branchName,
   "   git commit -m \"" ++ ta.commitMessage ++ "\"",
   "   git push origin " ++ ta.branchName,
   "Create a merge request with the title and description provided above"]

/-- The body of the `try` of lines 25-111: log lines produced so far
together with the error that escapes the body, if any.  A missing task id
prints an error message and returns (it does not throw); an empty or absent
ticket description skips every later stage. -/
def handleCommandBody (deps : CommandDeps) (opts : CommandOptions) :
    List String × Option String :=
  match opts.task with
  | none => ([missingTaskMsg], none)
  | some taskId =>
    let log0 := ["Fetching JIRA ticket: " ++ taskId]
    match deps.findIssue with
    | .error e => (log0, some e)
    | .ok issue =>
      let log1 := log0 ++ ["Key: " ++ issue.key]
      if issue.description.getD "" = "" then (log1, none)
      else
        match deps.analyze with
        | .error e => (log1, some e)
        | .ok ta =>
          match deps.generate with
          | .error e => (log1, some e)
          | .ok _ =>
            match deps.writeErr with
            | some e => (log1, some e)
            | none =>
              if opts.createMr then
                match deps.publishErr with
                | some e => (log1, some e)
                | none => (log1 ++ ["=== GITLAB OPERATIONS COMPLETED ==="], none)
              else (log1 ++ nextStepsChecklist ta, none)

/-- Lines 24-115: the whole body is wrapped in `try/catch`; the catch logs
`Error:` followed by the message and falls off the end of the function, so
the handler itself never throws (second component of the result). -/
def handleCommand (deps : CommandDeps) (opts : CommandOptions) :
    List String × Option String :=
  match handleCommandBody deps opts with
  | (log, none) => (log, none)
  | (log, some e) => (log ++ ["Error: " ++ e], none)

/-! ## Theorems -/

/-- C3: for every pair of ticket id and branch name, if the branch name does
not start with the ticket id case-insensitively, normalization produces
exactly the lowercased ticket id, a hyphen, and the lowercased branch name;
if it does already start with the ticket id in any casing, normalization
returns the branch name unchanged. -/
theorem claim_C3_branch_normalization (ticketKey branchName : String) :
    (jsStartsWith (jsToLower branchName) (jsToLower ticketKey) = false →
      normalizeBranchName ticketKey branchName =
        jsToLower ticketKey ++ "-" ++ jsToLower branchName) ∧
    (jsStartsWith (jsToLower branchName) (jsToLower ticketKey) = true →
      normalizeBranchName ticketKey branchName = branchName) := by
  constructor <;> intro h <;> simp [normalizeBranchName, h]

/-- Witness for C3 at concrete inputs: a branch name that lacks the ticket
prefix is rewritten, one that carries it in different casing is kept. -/
theorem claim_C3_branch_normalization_witness :
    normalizeBranchName "PROJ-123" "Fix-Bug" = "proj-123-fix-bug" ∧
    normalizeBranchName "PROJ-123" "Proj-123-fix" = "Proj-123-fix" := by
  constructor
  · exact ((claim_C3_branch_normalization "PROJ-123" "Fix-Bug").1 (by decide)).trans (by decide)
  · exact (claim_C3_branch_normalization "PROJ-123" "Proj-123-fix").2 (by decide)

/-- C4: a parsed candidate missing one required field (here the commit
message) makes extraction fail — no partial object is ever returned — but
the error surfaced to the caller is the generic parse-failure error rather
than the validation error, because the validation throw of line 93 sits
inside the JSON-parse try and is replaced by the catch of line 102. -/
theorem claim_C4_missing_field_fails :
    analyzeTicketDescription "PROJ-1"
      (.ok ⟨some "welcome_email", some ["user_name"], some "d", some "t",
            some "md", some "PROJ-1-welcome", none⟩) = .error parseFailMsg ∧
    parseFailMsg ≠ validationMsg := by decide

/-- C5: a well-formed JSON object missing required fields and a malformed
JSON text surface to the caller as the very same error value, so the two
failure kinds are not distinguishable by the caller. -/
theorem claim_C5_parse_validation_indistinguishable :
    analyzeTicketDescription "PROJ-2"
      (.ok ⟨some "other_template", none, none, none, none, none, none⟩) =
        .error parseFailMsg ∧
    analyzeTicketDescription "PROJ-2" (.err "Unexpected token < in JSON") =
      .error parseFailMsg := by decide

/-- C6 counterexample: the fallback tiers are substring tests on the raw
`git branch -a` output, not checks that a branch of that name exists.  On a
listing holding only the branches `maintenance` and `master` — so no branch
named `main` exists while a `master` branch does, and no HEAD branch is
advertised — the text `remotes/origin/main` still occurs (as the first part
of `remotes/origin/maintenance`), so the code selects `main`, where the
claim requires `master`. -/
theorem claim_C6_counterexample :
    (detectDefaultBranch (some "origin has no head line")
      (some "  remotes/origin/maintenance\n  remotes/origin/master\n")).1 = "main" ∧
    "main" ≠ "master" := by decide

/-- C6 amended: detection prefers a nonempty advertised HEAD branch
(trimmed) over the heuristics.  With no advertised HEAD, the fallback tiers
are substring tests on the raw listing: `main` is selected when the text
`remotes/origin/main` occurs anywhere (a branch such as `maintenance` also
satisfies this, even when no branch named `main` exists), else `master`
when `remotes/origin/master` occurs, and otherwise detection falls back to
`main` while logging the warning line.  When the `git remote show origin`
command itself throws, the heuristics are skipped and `main` is kept; when
only the branch-listing command throws, `main` is kept as well. -/
theorem claim_C6_default_branch_detection (out br : String) :
    (∀ cap, advertisedHead out.data = some cap →
      detectDefaultBranch (some out) (some br) =
        ((⟨trimBoth cap⟩ : String), ["Default branch detected"])) ∧
    (advertisedHead out.data = none →
      (containsSub "remotes/origin/main".data br.data = true →
        (detectDefaultBranch (some out) (some br)).1 = "main") ∧
      (containsSub "remotes/origin/main".data br.data = false →
        containsSub "remotes/origin/master".data br.data = true →
        (detectDefaultBranch (some out) (some br)).1 = "master") ∧
      (containsSub "remotes/origin/main".data br.data = false →
        containsSub "remotes/origin/master".data br.data = false →
        (detectDefaultBranch (some out) (some br)).1 = "main" ∧
        detectWarnMsg ∈ (detectDefaultBranch (some out) (some br)).2) ∧
      (detectDefaultBranch (some out) none).1 = "main") ∧
    (detectDefaultBranch none (some br)).1 = "main" := by
  refine ⟨?_, ?_, ?_⟩
  · intro cap hcap
    simp [detectDefaultBranch, hcap]
  · intro hnone
    refine ⟨?_, ?_, ?_, ?_⟩
    · intro hmain
      simp [detectDefaultBranch, hnone, fallbackBranches, hmain]
    · intro hmain hmaster
      simp [detectDefaultBranch, hnone, fallbackBranches, hmain, hmaster]
    · intro hmain hmaster
      simp [detectDefaultBranch, hnone, fallbackBranches, hmain, hmaster]
    · simp [detectDefaultBranch, hnone, fallbackBranches]
  · rfl

/-- Witness for C6 amended: an advertised HEAD branch wins; a branch
listing whose only occurrence of the `main` substring text is absent but
which holds `master` yields `master` when no HEAD is advertised. -/
theorem claim_C6_default_branch_detection_witness :
    detectDefaultBranch (some "* remote origin\n  HEAD branch: develop\n") (some "") =
      ("develop", ["Default branch detected"]) ∧
    (detectDefaultBranch (some "no head line here")
      (some "  remotes/origin/master\n")).1 = "master" := by
  constructor
  · exact ((claim_C6_default_branch_detection
      "* remote origin\n  HEAD branch: develop\n" "").1 "develop".data
      (by decide)).trans (by decide)
  · exact (claim_C6_default_branch_detection "no head line here"
      "  remotes/origin/master\n").2.1 (by decide) |>.2.1 (by decide) (by decide)

/-- C1: provided the cleanup action itself does not throw (the claim's spy
protocol), the publisher runs cleanup exactly once — on the all-success path
and whatever pipeline stage from cloning onward fails — and the error that
propagates to the caller is exactly the first failing stage's error, so
cleanup is reached before propagation. -/
theorem claim_C1_cleanup_runs_once (env : GitEnv) (init : PState)
    (hclean : env.cleanupErrs = []) :
    (createTemplateAndMergeRequest env init).cleanupCalls = 1 ∧
    (createTemplateAndMergeRequest env init).propagated = firstStageErr env := by
  rcases env with ⟨c, b, s, cp, mr, ce⟩
  subst hclean
  cases c <;> cases b <;> cases s <;> cases cp <;> cases mr <;>
    simp [createTemplateAndMergeRequest, cloneRepository, createBranch,
      saveTemplate, cleanup, catchPath, firstStageErr]

/-- Witness for C1 at a concrete failing stage: the checkout fails, cleanup
runs once, and the checkout error reaches the caller. -/
theorem claim_C1_cleanup_runs_once_witness :
    (createTemplateAndMergeRequest
        ⟨none, some "checkout failed", none, none, none, []⟩
        ⟨["work"], []⟩).cleanupCalls = 1 ∧
    (createTemplateAndMergeRequest
        ⟨none, some "checkout failed", none, none, none, []⟩
        ⟨["work"], []⟩).propagated = some "checkout failed" := by
  refine ⟨(claim_C1_cleanup_runs_once _ _ rfl).1,
    ((claim_C1_cleanup_runs_once _ _ rfl).2).trans (by decide)⟩

/-- C7 counterexample: the clone stage fails and the cleanup action then
throws; the error reaching the caller is the cleanup error, not the
original (wrapped) clone error, so the original error is masked. -/
theorem claim_C7_counterexample :
    (createTemplateAndMergeRequest
        ⟨some "network unreachable", none, none, none, none,
          [some "EACCES: rmdir failed"]⟩
        ⟨["home", "proj"], []⟩).propagated = some "EACCES: rmdir failed" ∧
    some "EACCES: rmdir failed" ≠
      some (cloneFailMsg "network unreachable") := by decide

/-- C7 amended: when a pipeline stage fails, the original stage error
propagates exactly when the cleanup call in the catch block succeeds; when
cleanup itself throws (its catch rethrows, line 298), the cleanup error
escapes instead of the original one. -/
theorem claim_C7_cleanup_error_masking (env : GitEnv) (init : PState) (e : String)
    (h : firstStageErr env = some e) :
    (createTemplateAndMergeRequest env init).propagated =
      some ((env.cleanupErrs.getD 0 none).getD e) := by
  rcases env with ⟨c, b, s, cp, mr, ce⟩
  cases c <;> cases b <;> cases s <;> cases cp <;> cases mr <;>
    simp_all [createTemplateAndMergeRequest, cloneRepository, createBranch,
      saveTemplate, cleanup, catchPath, firstStageErr] <;>
  cases hce : ce.getD 0 none <;>
    simp_all [createTemplateAndMergeRequest, cloneRepository, createBranch,
      saveTemplate, cleanup, catchPath]

/-- Witness for C7 amended: commit fails, cleanup succeeds, the commit
error propagates. -/
theorem claim_C7_cleanup_error_masking_witness :
    (createTemplateAndMergeRequest
        ⟨none, none, none, some "nothing to commit", none, []⟩
        ⟨["srv"], []⟩).propagated = some "nothing to commit" :=
  (claim_C7_cleanup_error_masking _ _ "nothing to commit" (by decide)).trans (by decide)

/-- C8 counterexample: when cloning fails, cleanup still executes
`process.chdir('..')`, so the process ends in the parent of the working
directory that was current when the publisher was invoked. -/
theorem claim_C8_counterexample :
    (createTemplateAndMergeRequest
        ⟨some "authentication failed", none, none, none, none, []⟩
        ⟨["home", "user", "proj"], []⟩).state.cwd = ["home", "user"] ∧
    (["home", "user"] : List String) ≠ ["home", "user", "proj"] := by decide

/-- C8 amended: provided cloning succeeded (and the cleanup action itself
does not throw), the publisher ends — returning or throwing — with the
original working directory restored and no directory of the scratch
workspace tree left, whichever later stage failed. -/
theorem claim_C8_cleanup_restores_state (env : GitEnv) (init : PState)
    (hclone : env.cloneErr = none) (hclean : env.cleanupErrs = []) :
    (createTemplateAndMergeRequest env init).state.cwd = init.cwd ∧
    ∀ p ∈ (createTemplateAndMergeRequest env init).state.dirs,
      (init.cwd ++ [tempDirName]).isPrefixOf p = false := by
  rcases env with ⟨c, b, s, cp, mr, ce⟩
  cases hclone
  subst hclean
  cases b <;> cases s <;> cases cp <;> cases mr <;>
    simp [createTemplateAndMergeRequest, cloneRepository, createBranch,
      saveTemplate, cleanup, catchPath, rmRec, List.mem_filter]

/-- Witness for C8 amended: all stages succeed and the working directory is
restored. -/
theorem claim_C8_cleanup_restores_state_witness :
    (createTemplateAndMergeRequest ⟨none, none, none, none, none, []⟩
        ⟨["repo"], []⟩).state.cwd = ["repo"] :=
  (claim_C8_cleanup_restores_state ⟨none, none, none, none, none, []⟩
    ⟨["repo"], []⟩ rfl rfl).1

/-- C9: construction of the publisher fails immediately with the
configuration error for a missing (or empty) `GITLAB_TOKEN`, and with the
corresponding error for a missing `REPO_NAME`; no client is built and no
network request can have been made in either case. -/
theorem claim_C9_constructor_fails_fast (env : HostingEnvVars) :
    (strTruthy env.gitlabToken = false →
      gitLabManagerConstructor env = .error tokenRequiredMsg) ∧
    (strTruthy env.gitlabToken = true → strTruthy env.repoName = false →
      gitLabManagerConstructor env = .error repoRequiredMsg) := by
  constructor
  · intro h
    simp [gitLabManagerConstructor, h]
  · intro h1 h2
    simp [gitLabManagerConstructor, h1, h2]

/-- Witness for C9: an environment without a token fails with the token
error, one with a token but no repository name fails with the repo error. -/
theorem claim_C9_constructor_fails_fast_witness :
    gitLabManagerConstructor ⟨none, none, some "group/repo"⟩ = .error tokenRequiredMsg ∧
    gitLabManagerConstructor ⟨some "tok", none, none⟩ = .error repoRequiredMsg := by
  exact ⟨(claim_C9_constructor_fails_fast ⟨none, none, some "group/repo"⟩).1 (by decide),
    (claim_C9_constructor_fails_fast ⟨some "tok", none, none⟩).2 (by decide) (by decide)⟩

/-- C10: the handler never propagates an exception — its propagated-error
component is always `none`; a missing task option just prints the error
message and returns; and when any stage of the body throws, the handler
logs `Error:` with the message and still returns normally. -/
theorem claim_C10_handler_never_throws (deps : CommandDeps) (opts : CommandOptions) :
    (handleCommand deps opts).2 = none ∧
    (opts.task = none → (handleCommand deps opts).1 = [missingTaskMsg]) ∧
    (∀ e, (handleCommandBody deps opts).2 = some e →
      ("Error: " ++ e) ∈ (handleCommand deps opts).1) := by
  refine ⟨?_, ?_, ?_⟩
  · unfold handleCommand
    rcases handleCommandBody deps opts with ⟨log, err⟩
    cases err <;> simp
  · intro h
    simp [handleCommand, handleCommandBody, h]
  · intro e he
    unfold handleCommand
    rcases hb : handleCommandBody deps opts with ⟨log, err⟩
    rw [hb] at he
    simp at he
    subst he
    simp

/-- Witness for C10: the metadata-extraction stage throws and the handler
still returns normally with the message logged. -/
theorem claim_C10_handler_never_throws_witness :
    (handleCommand
      ⟨.ok ⟨"PROJ-1", "s", "Open", some "desc"⟩, .error "boom", .ok "x", none, none⟩
      ⟨some "PROJ-1", false⟩).2 = none ∧
    ("Error: " ++ "boom") ∈ (handleCommand
      ⟨.ok ⟨"PROJ-1", "s", "Open", some "desc"⟩, .error "boom", .ok "x", none, none⟩
      ⟨some "PROJ-1", false⟩).1 := by
  refine ⟨(claim_C10_handler_never_throws _ _).1,
    (claim_C10_handler_never_throws _ _).2.2 "boom" (by decide)⟩


/-! ### Scanner lemmas for the fence-stripping regexes -/

theorem go_nil (p0 : Char) (pr : List Char) (n : Nat) (b : Bool) :
    go p0 pr n b [] = [] := by
  cases n <;> rfl

theorem go_skip (p0 : Char) (pr : List Char) (s : List Char) (b : Bool) (r : List Char) :
    go p0 pr s.length b (s ++ r) = go p0 pr 0 b r := by
  induction s with
  | nil => rfl
  | cons c cs ih => simpa [go] using ih

theorem go_no_match (p0 : Char) (pr : List Char) (c : Char) (cs : List Char)
    (h : (p0 :: pr).isPrefixOf (c :: cs) = false) :
    go p0 pr 0 false (c :: cs) = c :: go p0 pr 0 false cs := by
  simp [go, h]

theorem isPrefixOf_append_self {α : Type} [BEq α] [LawfulBEq α] (l r : List α) :
    l.isPrefixOf (l ++ r) = true := by
  induction l with
  | nil => simp [List.isPrefixOf]
  | cons a as ih => simp [List.isPrefixOf, ih]

theorem go_match (p0 : Char) (pr : List Char) (r : List Char) :
    go p0 pr 0 false (p0 :: (pr ++ r)) = go p0 pr 0 true r := by
  have h : (p0 :: pr).isPrefixOf (p0 :: (pr ++ r)) = true := by
    rw [← List.cons_append]
    exact isPrefixOf_append_self (p0 :: pr) r
  simp [go, h, go_skip]

theorem go_true_nl (p0 : Char) (pr : List Char) (cs : List Char) :
    go p0 pr 0 true ('\n' :: cs) = go p0 pr 0 false cs := by
  simp [go]

theorem isPrefixOf_head_ne {α : Type} [BEq α] [LawfulBEq α] (a b : α) (as bs : List α)
    (h : a ≠ b) : (a :: as).isPrefixOf (b :: bs) = false := by
  simp [List.isPrefixOf, h]

theorem go_copy (p0 : Char) (pr : List Char) (l r : List Char)
    (h : ∀ c ∈ l, p0 ≠ c) :
    go p0 pr 0 false (l ++ r) = l ++ go p0 pr 0 false r := by
  induction l with
  | nil => simp
  | cons c cs ih =>
    have hc : (p0 :: pr).isPrefixOf (c :: (cs ++ r)) = false :=
      isPrefixOf_head_ne _ _ _ _ (h c (by simp))
    calc go p0 pr 0 false ((c :: cs) ++ r)
        = c :: go p0 pr 0 false (cs ++ r) := by
          rw [List.cons_append]
          exact go_no_match _ _ _ _ hc
      _ = c :: (cs ++ go p0 pr 0 false r) := by
          rw [ih (fun x hx => h x (by simp [hx]))]
      _ = (c :: cs) ++ go p0 pr 0 false r := rfl

theorem npos_tag_nl (x : Char) (w : List Char) (hx : x ≠ '\n') (R : List Char) :
    ('`' :: ('`' :: '`' :: x :: w)).isPrefixOf ('`' :: '`' :: '`' :: '\n' :: R) = false := by
  have hb : (x == '\n') = false := beq_eq_false_iff_ne.mpr hx
  simp [List.isPrefixOf, hb]

theorem npos2_nl (rest R : List Char) :
    ('`' :: '`' :: '`' :: rest).isPrefixOf ('`' :: '`' :: '\n' :: R) = false := by
  simp [List.isPrefixOf]

theorem npos1_nl (rest R : List Char) :
    ('`' :: '`' :: rest).isPrefixOf ('`' :: '\n' :: R) = false := by
  simp [List.isPrefixOf]

theorem npos_second (c : Char) (hc : c ≠ '`') (rest R : List Char) :
    ('`' :: '`' :: rest).isPrefixOf ('`' :: c :: R) = false := by
  have hb : ('`' == c) = false := beq_eq_false_iff_ne.mpr (Ne.symm hc)
  simp [List.isPrefixOf, hb]

theorem np_len3 (x : Char) (w : List Char) :
    ('`' :: '`' :: '`' :: x :: w).isPrefixOf ['`', '`', '`'] = false := by
  simp [List.isPrefixOf]

theorem np_len2 (r : List Char) :
    ('`' :: '`' :: '`' :: r).isPrefixOf ['`', '`'] = false := by
  simp [List.isPrefixOf]

theorem np_len1 (r : List Char) :
    ('`' :: '`' :: r).isPrefixOf ['`'] = false := by
  simp [List.isPrefixOf]

theorem goTag_tail3 (x : Char) (w : List Char) :
    go '`' ('`' :: '`' :: x :: w) 0 false ['\n', '`', '`', '`'] = ['\n', '`', '`', '`'] := by
  rw [go_no_match _ _ _ _ (isPrefixOf_head_ne _ _ _ _ (by decide))]
  rw [go_no_match _ _ _ _ (np_len3 x w)]
  rw [go_no_match _ _ _ _ (np_len2 _)]
  rw [go_no_match _ _ _ _ (np_len1 _)]
  rfl

theorem goTag_single (x : Char) (w : List Char) :
    go '`' ('`' :: '`' :: x :: w) 0 false ['`'] = ['`'] := by
  rw [go_no_match _ _ _ _ (np_len1 _)]
  rfl

theorem goPlain_tail3 :
    go '`' fenceRegexTail 0 false ['\n', '`', '`', '`'] = ['\n'] := by decide

theorem goPlain_single :
    go '`' fenceRegexTail 0 false ['`'] = ['`'] := by decide

/-! ### Trim lemmas -/

theorem not_ws_of_ltrim_cons (c : Char) (cs : List Char) (h : ltrim (c :: cs) = c :: cs) :
    wsChar c = false := by
  by_contra hws
  rw [Bool.not_eq_false] at hws
  have h2 : ltrim (c :: cs) = cs.dropWhile wsChar := by
    simp [ltrim, List.dropWhile_cons, hws]
  rw [h2] at h
  have hle : (cs.dropWhile wsChar).length ≤ cs.length :=
    (List.dropWhile_sublist (l := cs) wsChar).length_le
  have hlen := congrArg List.length h
  simp at hlen
  omega

theorem dropWhile_reverse_of_rtrim (l : List Char) (h : rtrim l = l) :
    l.reverse.dropWhile wsChar = l.reverse := by
  have h2 := congrArg List.reverse h
  simpa [rtrim] using h2

theorem rtrim_concat_ws (l : List Char) (a : Char) (hws : wsChar a = true)
    (h : rtrim l = l) : rtrim (l ++ [a]) = l := by
  have h2 := dropWhile_reverse_of_rtrim l h
  simp [rtrim, List.dropWhile_cons, hws, h2]

theorem ltrim_cons_not_ws (c : Char) (cs : List Char) (h : wsChar c = false) :
    ltrim (c :: cs) = c :: cs := by
  simp [ltrim, List.dropWhile_cons, h]

theorem trimBoth_of_trimmed (l : List Char) (h : Trimmed l) : trimBoth l = l := by
  rw [trimBoth, h.1, h.2]

theorem mem_of_getLast_some {α : Type} {l : List α} {a : α} (h : l.getLast? = some a) :
    a ∈ l := by
  induction l with
  | nil => simp at h
  | cons c cs ih =>
    cases cs with
    | nil =>
      simp at h
      simp [h]
    | cons d ds =>
      rw [List.getLast?_cons_cons] at h
      exact List.mem_cons_of_mem _ (ih h)

theorem rtrim_eq_self_of_getLast (l : List Char) (a : Char)
    (h : l.getLast? = some a) (ha : wsChar a = false) : rtrim l = l := by
  cases hrev : l.reverse with
  | nil =>
    have hl : l = [] := by simpa using congrArg List.reverse hrev
    subst hl
    rfl
  | cons d ds =>
    have hd : l.getLast? = some d := by
      rw [← List.head?_reverse, hrev]
      rfl
    have had : d = a := by
      rw [hd] at h
      exact Option.some.inj h
    have h2 : l.reverse.dropWhile wsChar = l.reverse := by
      rw [hrev]
      simp [List.dropWhile_cons, had, ha]
    rw [rtrim, h2, List.reverse_reverse]

/-! ### Edge-backtick stripping lemmas -/

theorem stripEdgeBackticks_of_clean (l : List Char) (htr : Trimmed l)
    (hnb : ∀ c ∈ l, c ≠ '`') : stripEdgeBackticks l = l := by
  have h1 : dropHeadTick l = l := by
    rw [dropHeadTick, if_neg]
    intro h
    cases l with
    | nil => simp at h
    | cons c cs =>
      simp at h
      exact hnb c (by simp) h
  have h2 : dropLastTick l = l := by
    rw [dropLastTick, if_neg]
    intro h
    exact hnb '`' (mem_of_getLast_some h) rfl
  rw [stripEdgeBackticks, trimBoth_of_trimmed l htr, h1, h2, trimBoth_of_trimmed l htr]

theorem stripEdgeBackticks_concat_nl (l : List Char) (htr : Trimmed l)
    (hnb : ∀ c ∈ l, c ≠ '`') (hne : l ≠ []) :
    stripEdgeBackticks (l ++ ['\n']) = l := by
  obtain ⟨c, cs, rfl⟩ := List.exists_cons_of_ne_nil hne
  have hc : wsChar c = false := not_ws_of_ltrim_cons c cs htr.1
  have htb : trimBoth ((c :: cs) ++ ['\n']) = c :: cs := by
    rw [trimBoth, List.cons_append, ltrim_cons_not_ws c _ hc, ← List.cons_append,
      rtrim_concat_ws (c :: cs) '\n' (by decide) htr.2]
  have h1 : dropHeadTick (c :: cs) = c :: cs := by
    rw [dropHeadTick, if_neg]
    intro h
    simp at h
    exact hnb c (by simp) h
  have h2 : dropLastTick (c :: cs) = c :: cs := by
    rw [dropLastTick, if_neg]
    intro h
    exact hnb '`' (mem_of_getLast_some h) rfl
  rw [stripEdgeBackticks, htb, h1, h2, trimBoth_of_trimmed _ htr]

theorem stripEdgeBackticks_wrap_ticks (l : List Char) (htr : Trimmed l) :
    stripEdgeBackticks ('`' :: (l ++ ['`'])) = l := by
  have hlast : ('`' :: (l ++ ['`'])).getLast? = some '`' := by
    rw [show ('`' :: (l ++ ['`'])) = ('`' :: l) ++ ['`'] from by simp]
    exact List.getLast?_concat _
  have htb : trimBoth ('`' :: (l ++ ['`'])) = '`' :: (l ++ ['`']) := by
    rw [trimBoth, ltrim_cons_not_ws '`' _ (by decide),
      rtrim_eq_self_of_getLast _ '`' hlast (by decide)]
  have h1 : dropHeadTick ('`' :: (l ++ ['`'])) = l ++ ['`'] := by
    rw [dropHeadTick,
      if_pos (show ('`' :: (l ++ ['`'])).head? = some '`' from rfl)]
    rfl
  have h2 : dropLastTick (l ++ ['`']) = l := by
    rw [dropLastTick, if_pos (List.getLast?_concat _)]
    simp
  rw [stripEdgeBackticks, htb, h1, h2, trimBoth_of_trimmed _ htr]


/-! ### Full cleanup on fenced completions -/

theorem data_append (a b : String) : (a ++ b).data = a.data ++ b.data := rfl

theorem stripPattern_no_tick (pr T : List Char) (hnb : ∀ c ∈ T, '`' ≠ c) :
    stripPattern pr T = T := by
  have h := go_copy '`' pr T [] hnb
  simpa [stripPattern, go_nil] using h

theorem stripPattern_own_tag (x : Char) (w T : List Char) (hnb : ∀ c ∈ T, '`' ≠ c) :
    stripPattern ('`' :: '`' :: x :: w)
      ('`' :: (('`' :: '`' :: x :: w) ++ ('\n' :: (T ++ ['\n', '`', '`', '`']))))
      = T ++ ['\n', '`', '`', '`'] := by
  rw [stripPattern, go_match, go_true_nl, go_copy _ _ _ _ hnb, goTag_tail3]

theorem stripPattern_fence_tail (T : List Char) (hnb : ∀ c ∈ T, '`' ≠ c) :
    stripPattern fenceRegexTail (T ++ ['\n', '`', '`', '`']) = T ++ ['\n'] := by
  rw [stripPattern, go_copy _ _ _ _ hnb, goPlain_tail3]

theorem stripPattern_tag_on_plain (x : Char) (w : List Char) (hx : x ≠ '\n')
    (T : List Char) (hnb : ∀ c ∈ T, '`' ≠ c) :
    stripPattern ('`' :: '`' :: x :: w)
      ('`' :: '`' :: '`' :: '\n' :: (T ++ ['\n', '`', '`', '`']))
      = '`' :: '`' :: '`' :: '\n' :: (T ++ ['\n', '`', '`', '`']) := by
  rw [stripPattern]
  rw [go_no_match _ _ _ _ (npos_tag_nl x w hx _)]
  rw [go_no_match _ _ _ _ (npos2_nl _ _)]
  rw [go_no_match _ _ _ _ (npos1_nl _ _)]
  rw [go_no_match _ _ _ _ (isPrefixOf_head_ne _ _ _ _ (by decide))]
  rw [go_copy _ _ _ _ hnb, goTag_tail3]

theorem stripPattern_fence_on_plain (T : List Char) (hnb : ∀ c ∈ T, '`' ≠ c) :
    stripPattern fenceRegexTail
      ('`' :: '`' :: '`' :: '\n' :: (T ++ ['\n', '`', '`', '`'])) = T ++ ['\n'] := by
  rw [stripPattern]
  rw [show ('`' :: '`' :: '`' :: '\n' :: (T ++ ['\n', '`', '`', '`']))
      = '`' :: (fenceRegexTail ++ ('\n' :: (T ++ ['\n', '`', '`', '`']))) from by
    simp [fenceRegexTail]]
  rw [go_match, go_true_nl, go_copy _ _ _ _ hnb, goPlain_tail3]

theorem stripPattern_tick_wrap (rest : List Char) (c : Char) (hc : c ≠ '`')
    (cs : List Char) (hnb : ∀ a ∈ (c :: cs), '`' ≠ a)
    (hsingle : go '`' ('`' :: rest) 0 false ['`'] = ['`']) :
    stripPattern ('`' :: rest) ('`' :: ((c :: cs) ++ ['`']))
      = '`' :: ((c :: cs) ++ ['`']) := by
  rw [stripPattern]
  rw [show ((c :: cs) ++ ['`']) = c :: (cs ++ ['`']) from rfl]
  rw [go_no_match _ _ _ _ (npos_second c hc rest _)]
  rw [show (c :: (cs ++ ['`'])) = (c :: cs) ++ ['`'] from rfl]
  rw [go_copy _ _ _ _ hnb, hsingle]

theorem stripPattern_fence_tick_wrap (c : Char) (hc : c ≠ '`') (cs : List Char)
    (hnb : ∀ a ∈ (c :: cs), '`' ≠ a) :
    stripPattern fenceRegexTail ('`' :: ((c :: cs) ++ ['`']))
      = '`' :: ((c :: cs) ++ ['`']) :=
  stripPattern_tick_wrap ['`'] c hc cs hnb goPlain_single

/-- Behaviour of the two-pass fence stripping plus edge-backtick stripping
for a generic language tag `x :: w`, on a trimmed backtick-free body `T`:
no fencing, own-tag fence, untagged fence, and stray backticks all reduce
to `T` itself. -/
theorem cleanTagVariantL (x : Char) (w : List Char) (hx : x ≠ '\n') (T : List Char)
    (htr : Trimmed T) (hnb : ∀ c ∈ T, c ≠ '`') (hne : T ≠ []) :
    stripEdgeBackticks (stripPattern fenceRegexTail
      (stripPattern ('`' :: '`' :: x :: w) T)) = T ∧
    stripEdgeBackticks (stripPattern fenceRegexTail (stripPattern ('`' :: '`' :: x :: w)
      ('`' :: (('`' :: '`' :: x :: w) ++ ('\n' :: (T ++ ['\n', '`', '`', '`'])))))) = T ∧
    stripEdgeBackticks (stripPattern fenceRegexTail (stripPattern ('`' :: '`' :: x :: w)
      ('`' :: '`' :: '`' :: '\n' :: (T ++ ['\n', '`', '`', '`'])))) = T ∧
    stripEdgeBackticks (stripPattern fenceRegexTail (stripPattern ('`' :: '`' :: x :: w)
      ('`' :: (T ++ ['`'])))) = T := by
  have hnb2 : ∀ c ∈ T, '`' ≠ c := fun c hc => Ne.symm (hnb c hc)
  refine ⟨?_, ?_, ?_, ?_⟩
  · rw [stripPattern_no_tick _ _ hnb2, stripPattern_no_tick _ _ hnb2,
      stripEdgeBackticks_of_clean _ htr hnb]
  · rw [stripPattern_own_tag x w T hnb2, stripPattern_fence_tail T hnb2,
      stripEdgeBackticks_concat_nl T htr hnb hne]
  · rw [stripPattern_tag_on_plain x w hx T hnb2, stripPattern_fence_on_plain T hnb2,
      stripEdgeBackticks_concat_nl T htr hnb hne]
  · obtain ⟨c, cs, rfl⟩ := List.exists_cons_of_ne_nil hne
    have hc : c ≠ '`' := hnb c (by simp)
    rw [stripPattern_tick_wrap ('`' :: x :: w) c hc cs hnb2 (goTag_single x w)]
    rw [stripPattern_fence_tick_wrap c hc cs hnb2]
    exact stripEdgeBackticks_wrap_ticks (c :: cs) htr


/-- C2 counterexample: a completion wrapped in a fenced code block whose
language tag is not the one a cleaner strips (`html` for the JSON cleaner,
`json` for the code cleaner) is not restored to the unfenced completion:
the tag letters and a newline survive in the output.  A completion with
surrounding whitespace is trimmed, and one whose text begins and ends with
a backtick loses those backticks, so neither is restored either. -/
theorem claim_C2_counterexample :
    cleanJsonResponse "```html\nhello\n```" = "html\nhello" ∧
    cleanJsonResponse "```html\nhello\n```" ≠ "hello" ∧
    cleanGeneratedCode "```json\nhello\n```" = "json\nhello" ∧
    cleanGeneratedCode "```json\nhello\n```" ≠ "hello" ∧
    cleanJsonResponse "```\n x \n```" ≠ " x " ∧
    cleanGeneratedCode "```\n`x`\n```" ≠ "`x`" := by decide

/-- C2 amended: for completions that are whitespace-trimmed and contain no
backtick character, wrapping in a fenced code block carrying the language
tag the respective cleaner strips (`json` for `cleanJsonResponse`, `html`
for `cleanGeneratedCode`) or no tag at all, or surrounding with stray
single backticks, is undone exactly: both cleaners return the unfenced
completion byte for byte (and leave the bare completion unchanged). -/
theorem claim_C2_fencing_cleanup (t : String) (htr : Trimmed t.data)
    (hnb : ∀ c ∈ t.data, c ≠ '`') :
    cleanJsonResponse t = t ∧
    cleanGeneratedCode t = t ∧
    cleanJsonResponse ("```json\n" ++ t ++ "\n```") = t ∧
    cleanGeneratedCode ("```html\n" ++ t ++ "\n```") = t ∧
    cleanJsonResponse ("```\n" ++ t ++ "\n```") = t ∧
    cleanGeneratedCode ("```\n" ++ t ++ "\n```") = t ∧
    cleanJsonResponse ("`" ++ t ++ "`") = t ∧
    cleanGeneratedCode ("`" ++ t ++ "`") = t := by
  obtain ⟨T⟩ := t
  rcases T with _ | ⟨c, cs⟩
  · refine ⟨?_, ?_, ?_, ?_, ?_, ?_, ?_, ?_⟩ <;> decide
  · have hne : (c :: cs) ≠ ([] : List Char) := by simp
    have hjson := cleanTagVariantL 'j' ['s', 'o', 'n'] (by decide) (c :: cs) htr hnb hne
    have hhtml := cleanTagVariantL 'h' ['t', 'm', 'l'] (by decide) (c :: cs) htr hnb hne
    have e3 : ("```json\n" ++ (⟨c :: cs⟩ : String) ++ "\n```").data
        = '`' :: (('`' :: '`' :: 'j' :: ['s', 'o', 'n']) ++
            ('\n' :: ((c :: cs) ++ ['\n', '`', '`', '`']))) := by
      rw [data_append, data_append]
      simp
    have e4 : ("```html\n" ++ (⟨c :: cs⟩ : String) ++ "\n```").data
        = '`' :: (('`' :: '`' :: 'h' :: ['t', 'm', 'l']) ++
            ('\n' :: ((c :: cs) ++ ['\n', '`', '`', '`']))) := by
      rw [data_append, data_append]
      simp
    have e5 : ("```\n" ++ (⟨c :: cs⟩ : String) ++ "\n```").data
        = '`' :: '`' :: '`' :: '\n' :: ((c :: cs) ++ ['\n', '`', '`', '`']) := by
      rw [data_append, data_append]
      simp
    have e7 : ("`" ++ (⟨c :: cs⟩ : String) ++ "`").data
        = '`' :: ((c :: cs) ++ ['`']) := by
      rw [data_append, data_append]
      simp
    refine ⟨?_, ?_, ?_, ?_, ?_, ?_, ?_, ?_⟩
    · exact congrArg String.mk hjson.1
    · exact congrArg String.mk hhtml.1
    · refine congrArg String.mk ?_
      show cleanJsonResponseL (("```json\n" ++ (⟨c :: cs⟩ : String) ++ "\n```").data) = c :: cs
      rw [e3]
      exact hjson.2.1
    · refine congrArg String.mk ?_
      show cleanGeneratedCodeL (("```html\n" ++ (⟨c :: cs⟩ : String) ++ "\n```").data) = c :: cs
      rw [e4]
      exact hhtml.2.1
    · refine congrArg String.mk ?_
      show cleanJsonResponseL (("```\n" ++ (⟨c :: cs⟩ : String) ++ "\n```").data) = c :: cs
      rw [e5]
      exact hjson.2.2.1
    · refine congrArg String.mk ?_
      show cleanGeneratedCodeL (("```\n" ++ (⟨c :: cs⟩ : String) ++ "\n```").data) = c :: cs
      rw [e5]
      exact hhtml.2.2.1
    · refine congrArg String.mk ?_
      show cleanJsonResponseL (("`" ++ (⟨c :: cs⟩ : String) ++ "`").data) = c :: cs
      rw [e7]
      exact hjson.2.2.2
    · refine congrArg String.mk ?_
      show cleanGeneratedCodeL (("`" ++ (⟨c :: cs⟩ : String) ++ "`").data) = c :: cs
      rw [e7]
      exact hhtml.2.2.2

/-- Witness for C2 amended, at the completion `hello`: the own-tag fence,
the untagged fence and stray backticks are all stripped exactly. -/
theorem claim_C2_fencing_cleanup_witness :
    cleanJsonResponse "```json\nhello\n```" = "hello" ∧
    cleanGeneratedCode "```html\nhello\n```" = "hello" ∧
    cleanJsonResponse "`hello`" = "hello" := by
  have h := claim_C2_fencing_cleanup "hello" ⟨by decide, by decide⟩ (by decide)
  refine ⟨?_, ?_, ?_⟩
  · have e : ("```json\n" ++ "hello" ++ "\n```" : String) = "```json\nhello\n```" := by decide
    rw [← e]
    exact h.2.2.1
  · have e : ("```html\n" ++ "hello" ++ "\n```" : String) = "```html\nhello\n```" := by decide
    rw [← e]
    exact h.2.2.2.1
  · have e : ("`" ++ "hello" ++ "`" : String) = "`hello`" := by decide
    rw [← e]
    exact h.2.2.2.2.2.2.1


end AiTooling

